import Mathlib

/-!
Formalization of the response-normalization and error-classification layer of
the llm_endpoint service (FastAPI + Google Gemini).

The definitions below are a shallow embedding of the Python sources:
  - app/services/llm_client.py  (LLMClient: construction, clamping, ask/normalize)
  - app/api/v1/routes/ask.py    (route handler, usage_tokens derivation, lru_cache dependency)
  - app/models/schemas.py       (AskRequest / AskResponse pydantic schemas)

Python truthiness on optional values is modelled explicitly: a Python
expression `x or y` over int-or-None values falls through when `x` is `None`
OR `0`, and over string-or-None values when `x` is `None` or `""`.
Fallible Python code (raising exceptions) is modelled with `Except`.
-/

namespace LLMEndpoint

/-- Error kinds of the service error taxonomy.

Modelled from the spec: the file `app/utils/errors.py` defining
`LLMServiceError` is not under src/ (only its import sites are), so the error
type is modelled from the spec data model ServiceError with kind, message
and status_code, and the taxonomy table (ConfigurationError, NoCandidates,
EmptyResponse, ProviderFailure). -/
inductive ErrorKind where
  | ConfigurationError
  | NoCandidates
  | EmptyResponse
  | ProviderFailure
deriving DecidableEq, Repr

/-- Modelled from the spec: `LLMServiceError` carries a kind, a message and a
status code; the messages at each raise site are taken verbatim from
`app/services/llm_client.py`, the kind and the 502 status from the spec
taxonomy (502 lies in the "500 or 502" the spec allows for configuration
errors; the route falls back to 502 for classified errors). -/
structure LLMServiceError where
  kind : ErrorKind
  message : String
  status_code : Nat
deriving DecidableEq, Repr

/-- An arbitrary (non-classified) Python exception, known only by the string
that `str(e)` interpolates into wrapper messages. -/
structure PyExn where
  description : String
deriving DecidableEq, Repr

/-- A content part of a candidate. `text = none` models a part without a text
field (or with `text = None`); `some s` models a part whose `text` attribute
is the string `s`. -/
structure Part where
  text : Option String
deriving DecidableEq, Repr

/-- The `content` attribute of a candidate; `parts = none` models a missing or
`None` parts attribute. -/
structure Content where
  parts : Option (List Part)
deriving DecidableEq, Repr

/-- One generation candidate: optional content, the optional flattened `text`
shortcut some SDK versions expose, and the opaque finish reason (modelled by
its rendered string; `none` renders as "None" as Python str-formats it). -/
structure Candidate where
  content : Option Content
  text : Option String
  finish_reason : Option String
deriving DecidableEq, Repr

/-- Usage metadata attached to a provider response, with every field-name
alias the code probes via `getattr`; `none` models an absent attribute. -/
structure UsageMeta where
  prompt_token_count : Option Int
  prompt_tokens : Option Int
  candidates_token_count : Option Int
  completion_tokens : Option Int
  candidate_tokens : Option Int
  total_token_count : Option Int
  total_tokens : Option Int
deriving DecidableEq, Repr

/-- The opaque provider response: a candidate list (an absent or empty
`candidates` attribute are both falsy in `if not getattr(response,
"candidates", None)`, so both are modelled by `[]`), plus the two probed
usage attributes. -/
structure ProviderResponse where
  candidates : List Candidate
  usage_metadata : Option UsageMeta
  usage : Option UsageMeta
deriving DecidableEq, Repr

/-- The normalized usage dict built by `LLMClient.ask`. -/
structure Usage where
  prompt_tokens : Option Int
  completion_tokens : Option Int
  total_tokens : Option Int
deriving DecidableEq, Repr

/-- The normalized result dict returned by `LLMClient.ask`. -/
structure NormalizedResult where
  answer : String
  model : String
  usage : Usage
deriving DecidableEq, Repr

/-- The LLM client object; it keeps the configured model name. -/
structure LLMClient where
  model_name : String
deriving DecidableEq, Repr

/-- Modelled from the spec: the `Settings` class of `app/core/config.py` is
not under src/ (the file there holds the logging configuration); the spec says
the settings provider "exposes a credential string" and that the core treats
its absence as fatal. `none` models a missing environment variable, `some ""`
an empty one: both are falsy in `if not settings.GEMINI_API_KEY`. -/
structure Settings where
  GEMINI_API_KEY : Option String
deriving DecidableEq, Repr

def DEFAULT_MAX_TOKENS : Int := 1024
def MAX_ALLOWED_TOKENS : Int := 100000
def MIN_ALLOWED_TOKENS : Int := 1

/-- `LLMClient._clamp_max_tokens`. The Lean input `none` models any Python
value that is missing or fails `isinstance(max_tokens, int)`. -/
def clamp_max_tokens (max_tokens : Option Int) : Int :=
  match max_tokens with
  | none => DEFAULT_MAX_TOKENS
  | some t =>
      if t < MIN_ALLOWED_TOKENS then MIN_ALLOWED_TOKENS
      else if t > MAX_ALLOWED_TOKENS then MAX_ALLOWED_TOKENS
      else t

/-- Python string truthiness on an optional string: `none` and `some ""` are
falsy. Returns the string when truthy, else `none`. Used for
`if hasattr(part, "text") and part.text`, for `if candidate_text:` and for
`if not settings.GEMINI_API_KEY`. -/
def truthyStr (t : Option String) : Option String :=
  match t with
  | some s => if s = "" then none else some s
  | none => none

/-- Python `x or y` on optional ints: `None` and `0` are falsy and fall
through to `y`. -/
def pyOrInt (a b : Option Int) : Option Int :=
  match a with
  | some v => if v = 0 then b else some v
  | none => b

/-- The text a part contributes: its `text` attribute when present and
non-empty (`if hasattr(part, "text") and part.text`). -/
def textOfPart (p : Part) : Option String :=
  truthyStr p.text

/-- The loop of `LLMClient.ask` lines 85-89: the texts of the first
parts of the first candidate, in order, keeping only parts with a truthy
text field; the
guards on `candidate.content` and `candidate.content.parts` make the list
empty when either is absent. -/
def extractParts (c : Candidate) : List String :=
  match c.content with
  | none => []
  | some content =>
      match content.parts with
      | none => []
      | some ps => ps.filterMap textOfPart

/-- Lines 91-95: if no part contributed text, fall back to the flattened
`candidate.text` accessor, used only when truthy. -/
def partsWithFallback (c : Candidate) : List String :=
  let ps := extractParts c
  if ps = [] then
    match truthyStr c.text with
    | some s => [s]
    | none => []
  else ps

/-- Python str-formatting of the finish reason into the f-string. -/
def finishReasonStr (fr : Option String) : String :=
  match fr with
  | none => "None"
  | some s => s

/-- The message of the zero-candidates error (lines 76-79, the two adjacent
string literals concatenated). -/
def noCandidatesMsg : String :=
  "Gemini did not return any candidates. This can happen if the request was blocked by safety filters or the prompt was invalid."

/-- The message of the empty-response error (line 100). -/
def emptyResponseMsg (fr : Option String) : String :=
  "Gemini returned no text (finish_reason=" ++ finishReasonStr fr ++ "). This usually means the response was blocked by safety filters or the model chose not to answer."

/-- Lines 106-116: best-effort usage extraction. The metadata object is
`getattr(response, "usage_metadata", None) or getattr(response, "usage",
None)`; each counter is a chain of `getattr(..., None) or getattr(..., None)`
over the field-name aliases, with Python falsy fall-through (`pyOrInt`). -/
def extractUsage (resp : ProviderResponse) : Usage :=
  match resp.usage_metadata.orElse (fun _ => resp.usage) with
  | none => ⟨none, none, none⟩
  | some m =>
      { prompt_tokens := pyOrInt m.prompt_token_count m.prompt_tokens
        completion_tokens :=
          pyOrInt (pyOrInt m.candidates_token_count m.completion_tokens) m.candidate_tokens
        total_tokens := pyOrInt m.total_token_count m.total_tokens }

/-- The response-normalization body of `LLMClient.ask` (lines 74-124): the
zero-candidates check first, then text extraction with fallback, then the
empty-answer classification, then usage extraction, producing the normalized
dict. Classified failures are the `Except.error` branch. -/
def LLMClient.normalize (model_name : String) (resp : ProviderResponse) :
    Except LLMServiceError NormalizedResult :=
  match resp.candidates with
  | [] => .error ⟨.NoCandidates, noCandidatesMsg, 502⟩
  | candidate :: _ =>
      let parts := partsWithFallback candidate
      if parts = [] then
        .error ⟨.EmptyResponse, emptyResponseMsg candidate.finish_reason, 502⟩
      else
        .ok ⟨String.join parts, model_name, extractUsage resp⟩

/-- `LLMClient.ask`: clamp the requested tokens, call the provider with the
clamped value (the provider is a function from `max_output_tokens` to either
a response or a raised non-classified exception), then normalize. The
`except LLMServiceError: raise` / `except Exception` structure of lines
126-132 appears as: a classified error from normalization passes through
unchanged, while a provider exception is wrapped as `Gemini API error: ...`. -/
def LLMClient.ask (client : LLMClient) (provider : Int → Except PyExn ProviderResponse)
    (max_tokens : Option Int) : Except LLMServiceError NormalizedResult :=
  match provider (clamp_max_tokens max_tokens) with
  | .error e => .error ⟨.ProviderFailure, "Gemini API error: " ++ e.description, 502⟩
  | .ok resp => LLMClient.normalize client.model_name resp

/-- `LLMClient.__init__` (lines 27-39): reject a falsy API key, then attempt
the provider configuration (`genai.configure` + `GenerativeModel`), wrapping
any exception it raises. The kind/status pairing is modelled from the spec
taxonomy, the messages are verbatim from the source. -/
def LLMClient.construct (s : Settings) (providerSetup : Except PyExn Unit) (model : String) :
    Except LLMServiceError LLMClient :=
  if truthyStr s.GEMINI_API_KEY = none then
    .error ⟨.ConfigurationError, "Gemini API key missing in environment variables.", 502⟩
  else
    match providerSetup with
    | .ok _ => .ok ⟨model⟩
    | .error e =>
        .error ⟨.ConfigurationError, "Failed to initialize Gemini client: " ++ e.description, 502⟩

/-- One call through `functools.lru_cache(maxsize=1)` around
`get_llm_client`: given the construction attempt outcome and the current
cache, return the call result and the new cache. Per the documented
`lru_cache` semantics a raised exception is NOT cached: only a successful
return populates the cache. -/
def lru_step (construct : Except LLMServiceError LLMClient) (cache : Option LLMClient) :
    Except LLMServiceError LLMClient × Option LLMClient :=
  match cache with
  | some c => (.ok c, some c)
  | none =>
      match construct with
      | .ok c => (.ok c, some c)
      | .error e => (.error e, none)

/-- The cache contents after `n` calls to the memoized `get_llm_client`,
where `constructs i` is the outcome construction would have on call `i`
(constructions may fail at first and succeed later). -/
def lru_cache_state (constructs : Nat → Except LLMServiceError LLMClient) :
    Nat → Option LLMClient
  | 0 => none
  | n + 1 => (lru_step (constructs n) (lru_cache_state constructs n)).2

/-- The result the caller of the memoized `get_llm_client` sees on call `n`
(0-indexed). -/
def lru_result (constructs : Nat → Except LLMServiceError LLMClient) (n : Nat) :
    Except LLMServiceError LLMClient :=
  (lru_step (constructs n) (lru_cache_state constructs n)).1

/-- The validated request body of POST /api/v1/ask (`AskRequest`):
`max_tokens : int | None` after pydantic validation. -/
structure AskRequest where
  prompt : String
  max_tokens : Option Int
deriving DecidableEq, Repr

/-- The response body of POST /api/v1/ask (`AskResponse`). -/
structure AskResponse where
  answer : String
  model : Option String
  usage_tokens : Option Int
deriving DecidableEq, Repr

/-- The error surfaced by the route: `HTTPException(status_code, detail)`. -/
structure HTTPError where
  status_code : Nat
  detail : String
deriving DecidableEq, Repr

/-- Lines 50-54 of the route: `usage.get("prompt_tokens") or 0`,
`usage.get("completion_tokens") or 0`, and
`int(total_tokens) if total_tokens else int(prompt_tokens) +
int(completion_tokens)` — Python truthiness makes a `total_tokens` of `None`
OR `0` fall to the sum branch, and the result is always an int. -/
def deriveUsageTokens (usage : Usage) : Int :=
  let prompt_tokens := usage.prompt_tokens.getD 0
  let completion_tokens := usage.completion_tokens.getD 0
  match usage.total_tokens with
  | some t => if t = 0 then prompt_tokens + completion_tokens else t
  | none => prompt_tokens + completion_tokens

/-- The `ask_llm` route handler downstream of the client call: on success
build the `AskResponse` (note `usage_tokens` is always `some`), on a
classified `LLMServiceError` raise `HTTPException` with the original
status code and message (lines 65-71). -/
def ask_llm (llmResult : Except LLMServiceError NormalizedResult) :
    Except HTTPError AskResponse :=
  match llmResult with
  | .ok r => .ok ⟨r.answer, some r.model, some (deriveUsageTokens r.usage)⟩
  | .error e => .error ⟨e.status_code, e.message⟩

/-- A JSON field of the request body: absent, explicit `null`, or a value. -/
inductive JsonField (α : Type) where
  | missing
  | null
  | val (a : α)
deriving DecidableEq, Repr

/-- Pydantic validation of `max_tokens : int | None = Field(default=10000,
ge=1, le=100000)`: an omitted field takes the default 10000, an explicit
`null` is accepted (the annotation is nullable) as `None`, an integer must
satisfy the bounds, anything out of bounds is a validation error. -/
def validate_max_tokens (f : JsonField Int) : Except Unit (Option Int) :=
  match f with
  | .missing => .ok (some 10000)
  | .null => .ok none
  | .val v =>
      if 1 ≤ v then
        if v ≤ 100000 then .ok (some v) else .error ()
      else .error ()

/-- Pydantic validation of the whole `AskRequest` body: `prompt` is a
required string (no other constraint), `max_tokens` as above. -/
def validate_ask_request (pf : JsonField String) (mf : JsonField Int) :
    Except Unit AskRequest :=
  match pf with
  | .val p =>
      match validate_max_tokens mf with
      | .ok mt => .ok ⟨p, mt⟩
      | .error e => .error e
  | .missing => .error ()
  | .null => .error ()

/-! Shared helper lemmas. -/

theorem filterMap_ne_nil_of_mem {α β : Type} (f : α → Option β) (l : List α)
    (h : ∃ a ∈ l, f a ≠ none) : l.filterMap f ≠ [] := by
  intro hnil
  rw [List.filterMap_eq_nil_iff] at hnil
  obtain ⟨a, ha, hf⟩ := h
  exact hf (hnil a ha)

theorem lru_cache_state_succ_of_ok (constructs : Nat → Except LLMServiceError LLMClient)
    (i : Nat) (c : LLMClient) (h : lru_result constructs i = .ok c) :
    lru_cache_state constructs (i + 1) = some c := by
  unfold lru_result at h
  show (lru_step (constructs i) (lru_cache_state constructs i)).2 = some c
  unfold lru_step at h ⊢
  revert h
  cases lru_cache_state constructs i with
  | some c0 => intro h; simp at h; simp [h]
  | none =>
      cases constructs i with
      | ok c0 => intro h; simp at h; simp [h]
      | error e => intro h; simp at h

theorem lru_cached_stays (constructs : Nat → Except LLMServiceError LLMClient)
    (n : Nat) (c : LLMClient) (h : lru_cache_state constructs n = some c) :
    lru_result constructs n = .ok c ∧ lru_cache_state constructs (n + 1) = some c := by
  constructor
  · unfold lru_result lru_step
    rw [h]
  · show (lru_step (constructs n) (lru_cache_state constructs n)).2 = some c
    unfold lru_step
    rw [h]

theorem lru_cache_state_some_mono (constructs : Nat → Except LLMServiceError LLMClient)
    (i j : Nat) (c : LLMClient) (hij : i ≤ j) (h : lru_cache_state constructs i = some c) :
    lru_cache_state constructs j = some c := by
  induction j with
  | zero =>
      have : i = 0 := Nat.le_zero.mp hij
      rw [this] at h; exact h
  | succ n ih =>
      rcases Nat.lt_or_ge i (n + 1) with hlt | hge
      · have hn : lru_cache_state constructs n = some c := ih (Nat.lt_succ_iff.mp hlt)
        exact (lru_cached_stays constructs n c hn).2
      · have : i = n + 1 := Nat.le_antisymm hij hge
        rw [this] at h; exact h

theorem normalize_cons (m : String) (c : Candidate) (rest : List Candidate)
    (um uu : Option UsageMeta) :
    LLMClient.normalize m ⟨c :: rest, um, uu⟩ =
      if partsWithFallback c = [] then
        .error ⟨.EmptyResponse, emptyResponseMsg c.finish_reason, 502⟩
      else
        .ok ⟨String.join (partsWithFallback c), m, extractUsage ⟨c :: rest, um, uu⟩⟩ := rfl

/-! Claims. -/

/-- C1: the spec (and the claim) require a usage counter whose value is
present and equal to 0 to be reported as 0, with only a counter found under
none of its aliases left absent. The code uses Python `or` chains, for which
0 is falsy: a counter present with value 0 falls through every alias and is
reported as `None`, conflating 0 with "unknown". This theorem evaluates the
extraction on a metadata object whose `prompt_token_count` and
`total_token_count` are present and equal to 0: both normalized counters come
out absent instead of 0. -/
theorem c1_zero_conflated_with_absent :
    extractUsage ⟨[], some ⟨some 0, none, none, none, none, some 0, none⟩, none⟩ =
      ⟨none, none, none⟩ := rfl

/-- C2: the route handler can never surface a null `usage_tokens`: when all
three counters are absent it computes `0 + 0 = 0` (the claim and the spec
require null); and a present `total_tokens = 0` is falsy, so it is not
returned as-is either. Evaluated on a successful result whose usage counters
are all absent: `usage_tokens` is `some 0`, not `none`. -/
theorem c2_all_absent_gives_zero :
    ask_llm (.ok ⟨"4", "models/gemini-2.5-flash", ⟨none, none, none⟩⟩) =
      .ok ⟨"4", some "models/gemini-2.5-flash", some 0⟩ := rfl

/-- C3: the max-tokens resolver is total and never errors; it maps every
integer into [1, 100000], a missing or non-integer input to 1024, an integer
below 1 to 1, an integer above 100000 to 100000, and returns any in-range
integer unchanged; in particular resolve 0 = 1, resolve 200000 = 100000 and
resolve 5000 = 5000. -/
theorem c3_clamp_spec :
    (∀ t : Int, MIN_ALLOWED_TOKENS ≤ clamp_max_tokens (some t) ∧
        clamp_max_tokens (some t) ≤ MAX_ALLOWED_TOKENS) ∧
    clamp_max_tokens none = 1024 ∧
    (∀ t : Int, t < 1 → clamp_max_tokens (some t) = 1) ∧
    (∀ t : Int, t > 100000 → clamp_max_tokens (some t) = 100000) ∧
    (∀ t : Int, 1 ≤ t → t ≤ 100000 → clamp_max_tokens (some t) = t) ∧
    clamp_max_tokens (some 0) = 1 ∧
    clamp_max_tokens (some 200000) = 100000 ∧
    clamp_max_tokens (some 5000) = 5000 := by
  have hc : ∀ t : Int, clamp_max_tokens (some t) =
      if t < 1 then (1 : Int) else if t > 100000 then 100000 else t := fun t => rfl
  simp only [MIN_ALLOWED_TOKENS, MAX_ALLOWED_TOKENS]
  refine ⟨fun t => ?_, rfl, fun t ht => ?_, fun t ht => ?_, fun t h1 h2 => ?_, ?_, ?_, ?_⟩ <;>
    simp only [hc] <;> split_ifs <;> omega

/-- Witness for C3 at concrete inputs: -7 clamps to 1, 999999 clamps to
100000, 42 is returned unchanged. -/
theorem c3_clamp_spec_witness :
    clamp_max_tokens (some (-7)) = 1 ∧
    clamp_max_tokens (some 999999) = 100000 ∧
    clamp_max_tokens (some 42) = 42 :=
  ⟨c3_clamp_spec.2.2.1 (-7) (by decide),
   c3_clamp_spec.2.2.2.1 999999 (by decide),
   c3_clamp_spec.2.2.2.2.1 42 (by decide) (by decide)⟩

/-- C5: a provider response exposing zero candidates normalizes to a
classified ServiceError of kind NoCandidates with status 502 and the
safety-filter message, whatever the rest of the response holds and whatever
was requested — checked before any deeper structure access, and the client
call returns this classified error rather than letting any exception
escape. -/
theorem c5_no_candidates (client : LLMClient) (mt : Option Int)
    (um uu : Option UsageMeta) :
    LLMClient.ask client (fun _ => .ok ⟨[], um, uu⟩) mt =
      .error ⟨.NoCandidates,
        "Gemini did not return any candidates. This can happen if the request was blocked by safety filters or the prompt was invalid.",
        502⟩ := rfl

/-- C4: text extraction takes the first candidate and walks its ordered
content parts, keeping the text of every part that exposes a non-empty text
field, in original order, and joins them with no separator to form the
answer; parts without a text field are silently skipped and cause no error
(given at least one part contributes text, normalization succeeds with the
joined answer for ANY shape of the remaining parts). -/
theorem c4_text_extraction (m : String) (ps : List Part) (rest : List Candidate)
    (ct fr : Option String) (um uu : Option UsageMeta)
    (h : ∃ p ∈ ps, textOfPart p ≠ none) :
    LLMClient.normalize m ⟨⟨some ⟨some ps⟩, ct, fr⟩ :: rest, um, uu⟩ =
      .ok ⟨String.join (ps.filterMap textOfPart), m,
        extractUsage ⟨⟨some ⟨some ps⟩, ct, fr⟩ :: rest, um, uu⟩⟩ := by
  have hne : ps.filterMap textOfPart ≠ [] := filterMap_ne_nil_of_mem textOfPart ps h
  have hpf : partsWithFallback ⟨some ⟨some ps⟩, ct, fr⟩ = ps.filterMap textOfPart := by
    unfold partsWithFallback
    simp only [extractParts]
    simp [hne]
  rw [normalize_cons, hpf, if_neg hne]

/-- Witness for C4 at the spec example: parts ["A", no-text-part, "B"] yield
the answer "AB". -/
theorem c4_text_extraction_witness :
    LLMClient.normalize "models/gemini-2.5-flash"
        ⟨[⟨some ⟨some [⟨some "A"⟩, ⟨none⟩, ⟨some "B"⟩]⟩, none, none⟩], none, none⟩ =
      .ok ⟨"AB", "models/gemini-2.5-flash", ⟨none, none, none⟩⟩ := by
  rw [c4_text_extraction "models/gemini-2.5-flash" [⟨some "A"⟩, ⟨none⟩, ⟨some "B"⟩] []
      none none none none (by decide)]
  rfl

/-- C6: when no part contributed text, the single flattened text accessor on
the candidate is attempted and used only if non-empty (first conjunct); if
after both attempts no text was recovered, a classified ServiceError of kind
EmptyResponse with status 502 is raised whose message contains the rendered
finish-reason value (second conjunct, the message shown with the
finish-reason spliced into it). -/
theorem c6_fallback_and_empty (m : String) (c : Candidate) (rest : List Candidate)
    (um uu : Option UsageMeta) (hparts : extractParts c = []) :
    (∀ s, truthyStr c.text = some s →
        LLMClient.normalize m ⟨c :: rest, um, uu⟩ =
          .ok ⟨s, m, extractUsage ⟨c :: rest, um, uu⟩⟩) ∧
    (truthyStr c.text = none →
        LLMClient.normalize m ⟨c :: rest, um, uu⟩ =
          .error ⟨.EmptyResponse,
            "Gemini returned no text (finish_reason=" ++ finishReasonStr c.finish_reason ++
              "). This usually means the response was blocked by safety filters or the model chose not to answer.",
            502⟩) := by
  have hpf : partsWithFallback c =
      (match truthyStr c.text with | some s => [s] | none => []) := by
    unfold partsWithFallback
    rw [hparts]
    simp
  constructor
  · intro s hs
    rw [normalize_cons, hpf, hs]
    simp [String.join]
  · intro hn
    rw [normalize_cons, hpf, hn]
    simp [emptyResponseMsg]

/-- Witness for C6: a candidate whose only part has no text field but whose
flattened accessor holds "flat" yields the answer "flat"; the same candidate
with no flattened text and finish reason "SAFETY" yields the EmptyResponse
error with "SAFETY" in the message. -/
theorem c6_fallback_and_empty_witness :
    LLMClient.normalize "g" ⟨[⟨some ⟨some [⟨none⟩]⟩, some "flat", some "STOP"⟩], none, none⟩ =
      .ok ⟨"flat", "g", ⟨none, none, none⟩⟩ ∧
    LLMClient.normalize "g" ⟨[⟨some ⟨some [⟨none⟩]⟩, none, some "SAFETY"⟩], none, none⟩ =
      .error ⟨.EmptyResponse,
        "Gemini returned no text (finish_reason=" ++ finishReasonStr (some "SAFETY") ++
          "). This usually means the response was blocked by safety filters or the model chose not to answer.",
        502⟩ :=
  ⟨(c6_fallback_and_empty "g" ⟨some ⟨some [⟨none⟩]⟩, some "flat", some "STOP"⟩ [] none none
      (by decide)).1 "flat" (by decide),
   (c6_fallback_and_empty "g" ⟨some ⟨some [⟨none⟩]⟩, none, some "SAFETY"⟩ [] none none
      (by decide)).2 (by decide)⟩

/-- C7: a provider-call exception that is not a classified ServiceError is
caught and re-classified as ProviderFailure with status 502, wrapping the
original description in the message (first conjunct); a classified
ServiceError produced by the normalization steps passes out of the client
call unmodified, not re-wrapped (second conjunct); and the route layer maps
a classified error to an HTTP failure carrying exactly the original
status code and message (third conjunct). -/
theorem c7_classified_propagation (client : LLMClient)
    (provider : Int → Except PyExn ProviderResponse) (mt : Option Int)
    (e : PyExn) (resp : ProviderResponse) (se : LLMServiceError) :
    (provider (clamp_max_tokens mt) = .error e →
        LLMClient.ask client provider mt =
          .error ⟨.ProviderFailure, "Gemini API error: " ++ e.description, 502⟩) ∧
    (provider (clamp_max_tokens mt) = .ok resp →
        LLMClient.ask client provider mt = LLMClient.normalize client.model_name resp) ∧
    ask_llm (.error se) = .error ⟨se.status_code, se.message⟩ := by
  refine ⟨?_, ?_, rfl⟩
  · intro h
    unfold LLMClient.ask
    rw [h]
  · intro h
    unfold LLMClient.ask
    rw [h]

/-- Witness for C7: a provider raising "boom" surfaces as the wrapped
ProviderFailure; an EmptyResponse error reaches the HTTP boundary with its
own status 502 and message intact. -/
theorem c7_classified_propagation_witness :
    LLMClient.ask ⟨"g"⟩ (fun _ => .error ⟨"boom"⟩) none =
      .error ⟨.ProviderFailure, "Gemini API error: " ++ "boom", 502⟩ ∧
    ask_llm (.error ⟨.EmptyResponse, "blocked", 502⟩) = .error ⟨502, "blocked"⟩ :=
  ⟨(c7_classified_propagation ⟨"g"⟩ (fun _ => .error ⟨"boom"⟩) none ⟨"boom"⟩ ⟨[], none, none⟩
      ⟨.EmptyResponse, "blocked", 502⟩).1 rfl,
   (c7_classified_propagation ⟨"g"⟩ (fun _ => .error ⟨"boom"⟩) none ⟨"boom"⟩ ⟨[], none, none⟩
      ⟨.EmptyResponse, "blocked", 502⟩).2.2⟩

/-- C8: the memoized `get_llm_client` dependency constructs the client at
most once: once some call returns a constructed instance, every later call
returns that same instance (first conjunct); while the cache is empty each
call re-attempts construction and sees the fresh outcome, so a failed
construction is never cached as a permanent failure (second conjunct); and
once an instance is cached, a call returns it without consulting the
construction at all, whatever that construction would do (third conjunct). -/
theorem c8_lazy_memoized (constructs : Nat → Except LLMServiceError LLMClient)
    (i j : Nat) (c : LLMClient) (k : Except LLMServiceError LLMClient) :
    (lru_result constructs i = .ok c → i < j → lru_result constructs j = .ok c) ∧
    (lru_cache_state constructs i = none → lru_result constructs i = constructs i) ∧
    lru_step k (some c) = (.ok c, some c) := by
  refine ⟨?_, ?_, rfl⟩
  · intro h hij
    have h1 : lru_cache_state constructs (i + 1) = some c :=
      lru_cache_state_succ_of_ok constructs i c h
    have h2 : lru_cache_state constructs j = some c :=
      lru_cache_state_some_mono constructs (i + 1) j c hij h1
    exact (lru_cached_stays constructs j c h2).1
  · intro h
    unfold lru_result lru_step
    rw [h]
    cases constructs i <;> rfl

/-- A construction history that fails on the first call and succeeds from the
second call on, as in the missing-credential-then-fixed scenario. -/
def constructsW : Nat → Except LLMServiceError LLMClient :=
  fun n =>
    if n = 0 then
      .error ⟨.ConfigurationError, "Gemini API key missing in environment variables.", 502⟩
    else .ok ⟨"models/gemini-2.5-flash"⟩

/-- Witness for C8: the first call surfaces the fresh construction failure
(not a cached one), and after the second call succeeds the third call reuses
the same instance. -/
theorem c8_lazy_memoized_witness :
    lru_result constructsW 0 = constructsW 0 ∧
    lru_result constructsW 2 = .ok ⟨"models/gemini-2.5-flash"⟩ :=
  ⟨(c8_lazy_memoized constructsW 0 1 ⟨"models/gemini-2.5-flash"⟩
      (.ok ⟨"models/gemini-2.5-flash"⟩)).2.1 rfl,
   (c8_lazy_memoized constructsW 1 2 ⟨"models/gemini-2.5-flash"⟩
      (.ok ⟨"models/gemini-2.5-flash"⟩)).1 rfl (by decide)⟩

/-- C9: client construction fails fast with a classified ConfigurationError:
a falsy credential is rejected with the missing-key message before the
provider is touched (first conjunct); a provider that rejects the
configuration yields the wrapped initialization error (second conjunct); and
every construction failure is classified with kind ConfigurationError and
status 502 (which lies in the "500 or 502" the spec allows), so a request
never sees an unclassified construction fault (third conjunct). -/
theorem c9_configuration_error (key : Option String) (ps : Except PyExn Unit)
    (m : String) (err : LLMServiceError) :
    (truthyStr key = none →
        LLMClient.construct ⟨key⟩ ps m =
          .error ⟨.ConfigurationError, "Gemini API key missing in environment variables.",
            502⟩) ∧
    (∀ e, ps = .error e → truthyStr key ≠ none →
        LLMClient.construct ⟨key⟩ ps m =
          .error ⟨.ConfigurationError, "Failed to initialize Gemini client: " ++ e.description,
            502⟩) ∧
    (LLMClient.construct ⟨key⟩ ps m = .error err →
        err.kind = .ConfigurationError ∧ err.status_code = 502) := by
  refine ⟨?_, ?_, ?_⟩
  · intro h
    unfold LLMClient.construct
    rw [if_pos h]
  · intro e he hk
    unfold LLMClient.construct
    rw [if_neg hk, he]
  · intro h
    unfold LLMClient.construct at h
    split at h
    · simp only [Except.error.injEq] at h
      rw [← h]
      exact ⟨rfl, rfl⟩
    · revert h
      cases ps with
      | ok u => intro h; simp at h
      | error e =>
          intro h
          simp only [Except.error.injEq] at h
          rw [← h]
          exact ⟨rfl, rfl⟩

/-- Witness for C9: a missing key yields the missing-key configuration error;
a present key with a provider that rejects the configuration yields the
wrapped initialization error. -/
theorem c9_configuration_error_witness :
    LLMClient.construct ⟨none⟩ (.ok ()) "models/gemini-2.5-flash" =
      .error ⟨.ConfigurationError, "Gemini API key missing in environment variables.", 502⟩ ∧
    LLMClient.construct ⟨some "k"⟩ (.error ⟨"bad config"⟩) "models/gemini-2.5-flash" =
      .error ⟨.ConfigurationError, "Failed to initialize Gemini client: " ++ "bad config",
        502⟩ :=
  ⟨(c9_configuration_error none (.ok ()) "models/gemini-2.5-flash"
      ⟨.ConfigurationError, "", 502⟩).1 rfl,
   (c9_configuration_error (some "k") (.error ⟨"bad config"⟩) "models/gemini-2.5-flash"
      ⟨.ConfigurationError, "", 502⟩).2.1 ⟨"bad config"⟩ rfl (by decide)⟩

/-- C10 counterexample: the claim that every request passing schema
validation carries a max_tokens that is an integer in [1, 100000] (returned
unchanged by the resolver) is false: the schema type is `int | None`, so an
explicit JSON null passes validation, reaches the client as a missing value,
and engages the resolver branch the claim calls unreachable. Refuted at the
concrete body with prompt "2+2?" and an explicit max_tokens null. -/
theorem c10_schema_unreachable_cex :
    ¬ (∀ (pf : JsonField String) (mf : JsonField Int) (req : AskRequest),
        validate_ask_request pf mf = Except.ok req →
          ∃ t : Int, req.max_tokens = some t ∧ 1 ≤ t ∧ t ≤ 100000 ∧
            clamp_max_tokens req.max_tokens = t) := by
  intro hclaim
  obtain ⟨t, ht, _⟩ := hclaim (.val "2+2?") .null ⟨"2+2?", none⟩ rfl
  simp at ht

/-- C10 amended: an omitted max_tokens is filled with the schema default
10000 (not 1024); a supplied integer is accepted only when it lies in
[1, 100000]; but an explicit null is also accepted (the field is nullable)
and reaches the resolver as a missing value. So every validated request
either carries an integer in [1, 100000], which the resolver returns
unchanged (both clamping branches stay unreachable), or carries null — only
possible via an explicit null in the body — which resolves to the 1024
default. -/
theorem c10_schema_resolution (pf : JsonField String) (mf : JsonField Int)
    (req : AskRequest) (h : validate_ask_request pf mf = .ok req) :
    (mf = .missing → req.max_tokens = some 10000) ∧
    (∀ v : Int, mf = .val v → 1 ≤ v ∧ v ≤ 100000 ∧ req.max_tokens = some v) ∧
    ((∃ t : Int, req.max_tokens = some t ∧ 1 ≤ t ∧ t ≤ 100000 ∧
        clamp_max_tokens req.max_tokens = t) ∨
      (req.max_tokens = none ∧ mf = .null ∧ clamp_max_tokens req.max_tokens = 1024)) := by
  cases pf with
  | missing => exact absurd h (by simp [validate_ask_request])
  | null => exact absurd h (by simp [validate_ask_request])
  | val p =>
      cases mf with
      | missing =>
          simp only [validate_ask_request, validate_max_tokens, Except.ok.injEq] at h
          subst h
          refine ⟨fun _ => rfl, fun v hv => ?_,
            Or.inl ⟨10000, rfl, by decide, by decide, ?_⟩⟩
          · cases hv
          · show clamp_max_tokens (some 10000) = (10000 : Int)
            decide
      | null =>
          simp only [validate_ask_request, validate_max_tokens, Except.ok.injEq] at h
          subst h
          refine ⟨fun hv => ?_, fun v hv => ?_, Or.inr ⟨rfl, rfl, rfl⟩⟩
          · cases hv
          · cases hv
      | val v =>
          by_cases h1 : 1 ≤ v
          · by_cases h2 : v ≤ 100000
            · simp only [validate_ask_request, validate_max_tokens, if_pos h1, if_pos h2,
                Except.ok.injEq] at h
              subst h
              have hcv : clamp_max_tokens (some v) = v := by
                have e : clamp_max_tokens (some v) =
                    if v < 1 then (1 : Int) else if v > 100000 then 100000 else v := rfl
                rw [e, if_neg (by omega), if_neg (by omega)]
              refine ⟨fun hv => ?_, fun w hw => ?_, Or.inl ⟨v, rfl, h1, h2, hcv⟩⟩
              · cases hv
              · cases hw
                exact ⟨h1, h2, rfl⟩
            · exact absurd h
                (by simp [validate_ask_request, validate_max_tokens, if_pos h1, if_neg h2])
          · exact absurd h (by simp [validate_ask_request, validate_max_tokens, if_neg h1])

/-- Witness for C10 amended, at an omitted max_tokens field: validation fills
in 10000 and the resolved value is in range and returned unchanged. -/
theorem c10_schema_resolution_witness :
    (AskRequest.mk "2+2?" (some 10000)).max_tokens = some 10000 ∧
    ((∃ t : Int, (AskRequest.mk "2+2?" (some 10000)).max_tokens = some t ∧
        1 ≤ t ∧ t ≤ 100000 ∧
        clamp_max_tokens (AskRequest.mk "2+2?" (some 10000)).max_tokens = t) ∨
      ((AskRequest.mk "2+2?" (some 10000)).max_tokens = none ∧
        (JsonField.missing : JsonField Int) = .null ∧
        clamp_max_tokens (AskRequest.mk "2+2?" (some 10000)).max_tokens = 1024)) :=
  ⟨(c10_schema_resolution (.val "2+2?") .missing ⟨"2+2?", some 10000⟩ rfl).1 rfl,
   (c10_schema_resolution (.val "2+2?") .missing ⟨"2+2?", some 10000⟩ rfl).2.2⟩

end LLMEndpoint
